import Mathlib

/-!
Verification of the persistence-schema definitions in
`src/app/models/models.py` (SQLModel declarations for `User`,
`Booking`, `Order`, `OrderItem` and the four enumerated status types).

The file is a shallow embedding: each enumerated type becomes a Lean
inductive, each record type becomes a Lean structure whose fields carry
the declared Python types (`Optional[...]` becomes `Option`,
`Decimal` becomes a scaled-integer representation, `float` becomes an
opaque 64-bit pattern), each `Field(...)` declaration is also recorded
declaratively as a `FieldSpec`, and the constraint set that the
declarations announce (max lengths, decimal precision, the `ge=1`
bound, `validate_assignment`) is embedded as executable validation
functions with the standard pydantic meaning of those keywords.
-/

/-- A generated unique identifier (`uuid.UUID` in the source),
represented abstractly by a natural number. -/
structure UUID where
  val : Nat
deriving DecidableEq, Repr

/-- A timestamp (`datetime` in the source), represented abstractly by a
natural number. -/
structure DateTime where
  epoch : Nat
deriving DecidableEq, Repr

/-- An arbitrary-precision decimal value (`decimal.Decimal` in the
source): the value is `mantissa / 10 ^ exponent`, and `exponent` is the
number of fractional digits of the written form (trailing zeros
count, exactly as in Python's `Decimal`). -/
structure Dec where
  mantissa : Int
  exponent : Nat
deriving DecidableEq, Repr

/-- The rational value denoted by a `Dec`. -/
def Dec.toRat (d : Dec) : ℚ :=
  (d.mantissa : ℚ) / ((10 : ℚ) ^ d.exponent)

/-- The pydantic check for `Field(max_digits=10, decimal_places=2)`:
at most 2 fractional digits, and at most 10 − 2 = 8 digits before the
decimal point, i.e. `|mantissa| < 10 ^ (8 + exponent)`. -/
def validDec (d : Dec) : Bool :=
  decide (d.exponent ≤ 2) && decide (d.mantissa.natAbs < 10 ^ (8 + d.exponent))

/-- An IEEE-754 double (`float` in the source), represented opaquely by
its 64-bit pattern.  Only `Booking.estimated_price` and
`Booking.final_price` use this type. -/
structure BinaryFloat where
  bits : Nat
deriving DecidableEq, Repr

/-- `class BookingStatus(str, Enum)` of the source. -/
inductive BookingStatus where
  | pending
  | confirmed
  | cancelled
  | completed
deriving DecidableEq, Repr

/-- The string value of each `BookingStatus` member. -/
def BookingStatus.toStr : BookingStatus → String
  | .pending => "pending"
  | .confirmed => "confirmed"
  | .cancelled => "cancelled"
  | .completed => "completed"

/-- Membership lookup by value in the `BookingStatus` enum (the
coercion a `str`-valued Python `Enum` performs). -/
def BookingStatus.ofString (s : String) : Option BookingStatus :=
  if s = "pending" then some .pending
  else if s = "confirmed" then some .confirmed
  else if s = "cancelled" then some .cancelled
  else if s = "completed" then some .completed
  else none

/-- All members of `BookingStatus`, in source order. -/
def BookingStatus.all : List BookingStatus :=
  [.pending, .confirmed, .cancelled, .completed]

/-- `class OrderStatus(str, Enum)` of the source. -/
inductive OrderStatus where
  | pending
  | confirmed
  | in_progress
  | ready
  | completed
  | cancelled
  | refunded
deriving DecidableEq, Repr

/-- The string value of each `OrderStatus` member. -/
def OrderStatus.toStr : OrderStatus → String
  | .pending => "pending"
  | .confirmed => "confirmed"
  | .in_progress => "in_progress"
  | .ready => "ready"
  | .completed => "completed"
  | .cancelled => "cancelled"
  | .refunded => "refunded"

/-- Membership lookup by value in the `OrderStatus` enum. -/
def OrderStatus.ofString (s : String) : Option OrderStatus :=
  if s = "pending" then some .pending
  else if s = "confirmed" then some .confirmed
  else if s = "in_progress" then some .in_progress
  else if s = "ready" then some .ready
  else if s = "completed" then some .completed
  else if s = "cancelled" then some .cancelled
  else if s = "refunded" then some .refunded
  else none

/-- All members of `OrderStatus`, in source order. -/
def OrderStatus.all : List OrderStatus :=
  [.pending, .confirmed, .in_progress, .ready, .completed, .cancelled, .refunded]

/-- `class OrderType(str, Enum)` of the source. -/
inductive OrderType where
  | pickup
  | delivery
  | dine_in
  | online
  | in_store
  | service
deriving DecidableEq, Repr

/-- The string value of each `OrderType` member. -/
def OrderType.toStr : OrderType → String
  | .pickup => "pickup"
  | .delivery => "delivery"
  | .dine_in => "dine_in"
  | .online => "online"
  | .in_store => "in_store"
  | .service => "service"

/-- Membership lookup by value in the `OrderType` enum. -/
def OrderType.ofString (s : String) : Option OrderType :=
  if s = "pickup" then some .pickup
  else if s = "delivery" then some .delivery
  else if s = "dine_in" then some .dine_in
  else if s = "online" then some .online
  else if s = "in_store" then some .in_store
  else if s = "service" then some .service
  else none

/-- All members of `OrderType`, in source order. -/
def OrderType.all : List OrderType :=
  [.pickup, .delivery, .dine_in, .online, .in_store, .service]

/-- `class PaymentStatus(str, Enum)` of the source. -/
inductive PaymentStatus where
  | pending
  | paid
  | failed
  | refunded
deriving DecidableEq, Repr

/-- The string value of each `PaymentStatus` member. -/
def PaymentStatus.toStr : PaymentStatus → String
  | .pending => "pending"
  | .paid => "paid"
  | .failed => "failed"
  | .refunded => "refunded"

/-- Membership lookup by value in the `PaymentStatus` enum. -/
def PaymentStatus.ofString (s : String) : Option PaymentStatus :=
  if s = "pending" then some .pending
  else if s = "paid" then some .paid
  else if s = "failed" then some .failed
  else if s = "refunded" then some .refunded
  else none

/-- All members of `PaymentStatus`, in source order. -/
def PaymentStatus.all : List PaymentStatus :=
  [.pending, .paid, .failed, .refunded]

/-- `class User(SQLModel, table=True)` of the source, lines 9-16. -/
structure User where
  id : UUID
  name : String
  email : String
  phone_number : String
  role : String
  created_at : DateTime
  updated_at : DateTime
deriving DecidableEq, Repr

/-- `class Booking(SQLModel, table=True)` of the source, lines 26-54.
`estimated_price` and `final_price` are declared `Optional[float]`
there, hence `Option BinaryFloat` here. -/
structure Booking where
  id : UUID
  client_name : String
  email : String
  phone : Option String
  start_time : DateTime
  end_time : DateTime
  service_type : Option String
  notes : Option String
  owner_name : String
  address : String
  status : BookingStatus
  created_at : DateTime
  updated_at : DateTime
  user_id : Option UUID
  estimated_price : Option BinaryFloat
  final_price : Option BinaryFloat
deriving DecidableEq, Repr

/-- `class Order(SQLModel, table=True)` of the source, lines 83-133. -/
structure Order where
  id : UUID
  user_id : Option UUID
  customer_name : String
  email : String
  phone_number : Option String
  address : Option String
  city : Option String
  state : Option String
  postal_code : Option String
  country : Option String
  order_type : OrderType
  subtotal : Dec
  tax_amount : Dec
  service_fee : Dec
  discount_amount : Dec
  tip_amount : Dec
  total_amount : Dec
  status : OrderStatus
  payment_status : PaymentStatus
  created_at : DateTime
  updated_at : DateTime
  scheduled_for : Option DateTime
  completed_at : Option DateTime
  special_instructions : Option String
  reference_number : Option String
  payment_method : Option String
  payment_reference : Option String
  promo_code : Option String
  business_notes : Option String
deriving DecidableEq, Repr

/-- `Order.Config` of the source declares `validate_assignment = True`
(lines 132-133): assignments to `Order` fields re-run validation. -/
def Order.cfgValidateAssignment : Bool := true

/-- `User` declares no `Config`, so `validate_assignment` keeps its
pydantic default `False`. -/
def User.cfgValidateAssignment : Bool := false

/-- `Booking` declares no `Config`, so `validate_assignment` keeps its
pydantic default `False`. -/
def Booking.cfgValidateAssignment : Bool := false

/-- `class OrderItem(SQLModel, table=True)` of the source,
lines 137-158. -/
structure OrderItem where
  id : UUID
  order_id : UUID
  item_name : String
  item_description : Option String
  item_category : Option String
  quantity : Int
  unit_price : Dec
  total_price : Dec
  customizations : Option String
  item_notes : Option String
  item_reference : Option String
  created_at : DateTime
deriving DecidableEq, Repr

/-- `OrderItem` declares no `Config`, so `validate_assignment` keeps
its pydantic default `False`. -/
def OrderItem.cfgValidateAssignment : Bool := false

/-- Construct a `Booking` from its required fields only, filling every
other field with the default its `Field(...)` declaration gives it
(`id`, `created_at` and `updated_at` come from `default_factory`
calls, passed in here as the generated identifier and the creation
time). -/
def mkBooking (id : UUID) (client_name email : String)
    (start_time end_time : DateTime) (owner_name address : String)
    (now : DateTime) : Booking :=
  { id := id
    client_name := client_name
    email := email
    phone := none
    start_time := start_time
    end_time := end_time
    service_type := none
    notes := none
    owner_name := owner_name
    address := address
    status := .pending
    created_at := now
    updated_at := now
    user_id := none
    estimated_price := none
    final_price := none }

/-- Construct an `Order` from its required fields only (`subtotal` and
`total_amount` are the only required non-identity, non-customer
fields), filling every other field with its declared default:
`default=0` on the four other monetary fields, `default="US"` on
`country`, enum defaults on `order_type`/`status`/`payment_status`,
`None` on every optional field, and the `default_factory` results
`id`/`now`. -/
def mkOrder (id : UUID) (customer_name email : String)
    (subtotal total_amount : Dec) (now : DateTime) : Order :=
  { id := id
    user_id := none
    customer_name := customer_name
    email := email
    phone_number := none
    address := none
    city := none
    state := none
    postal_code := none
    country := some "US"
    order_type := .pickup
    subtotal := subtotal
    tax_amount := ⟨0, 0⟩
    service_fee := ⟨0, 0⟩
    discount_amount := ⟨0, 0⟩
    tip_amount := ⟨0, 0⟩
    total_amount := total_amount
    status := .pending
    payment_status := .pending
    created_at := now
    updated_at := now
    scheduled_for := none
    completed_at := none
    special_instructions := none
    reference_number := none
    payment_method := none
    payment_reference := none
    promo_code := none
    business_notes := none }

/-- Construct an `OrderItem` from its required fields only, filling
every other field with its declared default; in particular
`quantity` gets its declared `default=1`. -/
def mkOrderItem (id order_id : UUID) (item_name : String)
    (unit_price total_price : Dec) (now : DateTime) : OrderItem :=
  { id := id
    order_id := order_id
    item_name := item_name
    item_description := none
    item_category := none
    quantity := 1
    unit_price := unit_price
    total_price := total_price
    customizations := none
    item_notes := none
    item_reference := none
    created_at := now }

/-- Length check for an optional string field: `None` always passes,
a present string must respect the declared `max_length`. -/
def optLenOk (o : Option String) (n : Nat) : Bool :=
  match o with
  | none => true
  | some s => s.length ≤ n

/-- The conjunction of every constraint the `User` field declarations
announce (four `max_length` bounds; no numeric constraints). -/
def User.checkAll (u : User) : Bool :=
  decide (u.name.length ≤ 100) && decide (u.email.length ≤ 255) &&
    decide (u.phone_number.length ≤ 15) && decide (u.role.length ≤ 5)

/-- The conjunction of every constraint the `Booking` field
declarations announce.  `estimated_price` and `final_price` carry no
`Field` keyword other than `default=None`, so no check inspects
them. -/
def Booking.checkAll (b : Booking) : Bool :=
  decide (b.client_name.length ≤ 255) && decide (b.email.length ≤ 255) &&
    optLenOk b.phone 20 && optLenOk b.service_type 100 &&
    optLenOk b.notes 1000 && decide (b.owner_name.length ≤ 255) &&
    decide (b.address.length ≤ 255)

/-- The conjunction of every constraint the `Order` field declarations
announce: length bounds on the string fields and
`max_digits=10, decimal_places=2` on all six `Decimal` fields.  The
enum-typed fields are constrained by their types alone, so no check
inspects them. -/
def Order.checkAll (o : Order) : Bool :=
  decide (o.customer_name.length ≤ 255) && decide (o.email.length ≤ 255) &&
    optLenOk o.phone_number 15 && optLenOk o.address 255 &&
    optLenOk o.city 255 && optLenOk o.state 100 &&
    optLenOk o.postal_code 20 && optLenOk o.country 100 &&
    validDec o.subtotal && validDec o.tax_amount &&
    validDec o.service_fee && validDec o.discount_amount &&
    validDec o.tip_amount && validDec o.total_amount &&
    optLenOk o.special_instructions 1000 && optLenOk o.reference_number 100 &&
    optLenOk o.payment_method 50 && optLenOk o.payment_reference 100 &&
    optLenOk o.promo_code 50 && optLenOk o.business_notes 1000

/-- The conjunction of every constraint the `OrderItem` field
declarations announce, including the `ge=1` bound on `quantity` — the
only numeric lower bound declared anywhere in the schema. -/
def OrderItem.checkAll (i : OrderItem) : Bool :=
  decide (i.item_name.length ≤ 255) && optLenOk i.item_description 500 &&
    optLenOk i.item_category 100 && decide (1 ≤ i.quantity) &&
    validDec i.unit_price && validDec i.total_price &&
    optLenOk i.customizations 500 && optLenOk i.item_notes 500 &&
    optLenOk i.item_reference 100

/-- The string-typed fields of `Order`, used to state properties of
assignment uniformly over every such field. -/
inductive OrderStrField where
  | customer_name
  | email
  | phone_number
  | address
  | city
  | state
  | postal_code
  | country
  | special_instructions
  | reference_number
  | payment_method
  | payment_reference
  | promo_code
  | business_notes
deriving DecidableEq, Repr

/-- The declared `max_length` of each string-typed `Order` field. -/
def OrderStrField.maxLen : OrderStrField → Nat
  | .customer_name => 255
  | .email => 255
  | .phone_number => 15
  | .address => 255
  | .city => 255
  | .state => 100
  | .postal_code => 20
  | .country => 100
  | .special_instructions => 1000
  | .reference_number => 100
  | .payment_method => 50
  | .payment_reference => 100
  | .promo_code => 50
  | .business_notes => 1000

/-- Raw field update (what assignment stores when it is accepted). -/
def Order.writeStr (o : Order) : OrderStrField → String → Order
  | .customer_name, s => { o with customer_name := s }
  | .email, s => { o with email := s }
  | .phone_number, s => { o with phone_number := some s }
  | .address, s => { o with address := some s }
  | .city, s => { o with city := some s }
  | .state, s => { o with state := some s }
  | .postal_code, s => { o with postal_code := some s }
  | .country, s => { o with country := some s }
  | .special_instructions, s => { o with special_instructions := some s }
  | .reference_number, s => { o with reference_number := some s }
  | .payment_method, s => { o with payment_method := some s }
  | .payment_reference, s => { o with payment_reference := some s }
  | .promo_code, s => { o with promo_code := some s }
  | .business_notes, s => { o with business_notes := some s }

/-- Assignment of a string to an `Order` field.  Because `Order.Config`
sets `validate_assignment = True`, the declared `max_length` of the
target field is re-checked and a violating assignment is rejected. -/
def Order.setStr (o : Order) (f : OrderStrField) (s : String) : Option Order :=
  if Order.cfgValidateAssignment then
    if s.length ≤ f.maxLen then some (o.writeStr f s) else none
  else
    some (o.writeStr f s)

/-- The `Decimal`-typed fields of `Order`. -/
inductive OrderDecField where
  | subtotal
  | tax_amount
  | service_fee
  | discount_amount
  | tip_amount
  | total_amount
deriving DecidableEq, Repr

/-- Raw field update for the `Decimal`-typed `Order` fields. -/
def Order.writeDec (o : Order) : OrderDecField → Dec → Order
  | .subtotal, d => { o with subtotal := d }
  | .tax_amount, d => { o with tax_amount := d }
  | .service_fee, d => { o with service_fee := d }
  | .discount_amount, d => { o with discount_amount := d }
  | .tip_amount, d => { o with tip_amount := d }
  | .total_amount, d => { o with total_amount := d }

/-- Assignment of a decimal to an `Order` monetary field; with
`validate_assignment = True` the `max_digits=10, decimal_places=2`
declaration is re-checked. -/
def Order.setDec (o : Order) (f : OrderDecField) (d : Dec) : Option Order :=
  if Order.cfgValidateAssignment then
    if validDec d then some (o.writeDec f d) else none
  else
    some (o.writeDec f d)

/-- Assignment of an `OrderStatus` value to `Order.status`.  Every
value of the enum type is legal for the field, and the declaration
places no constraint on any other field, so the assignment stores the
value and touches nothing else. -/
def Order.setStatus (o : Order) (s : OrderStatus) : Order :=
  { o with status := s }

/-- Assignment of a `PaymentStatus` value to `Order.payment_status`,
analogous to `Order.setStatus`. -/
def Order.setPaymentStatus (o : Order) (p : PaymentStatus) : Order :=
  { o with payment_status := p }

/-- The string-typed fields of `Booking`. -/
inductive BookingStrField where
  | client_name
  | email
  | phone
  | service_type
  | notes
  | owner_name
  | address
deriving DecidableEq, Repr

/-- The declared `max_length` of each string-typed `Booking` field. -/
def BookingStrField.maxLen : BookingStrField → Nat
  | .client_name => 255
  | .email => 255
  | .phone => 20
  | .service_type => 100
  | .notes => 1000
  | .owner_name => 255
  | .address => 255

/-- Raw field update for the string-typed `Booking` fields. -/
def Booking.writeStr (b : Booking) : BookingStrField → String → Booking
  | .client_name, s => { b with client_name := s }
  | .email, s => { b with email := s }
  | .phone, s => { b with phone := some s }
  | .service_type, s => { b with service_type := some s }
  | .notes, s => { b with notes := some s }
  | .owner_name, s => { b with owner_name := s }
  | .address, s => { b with address := s }

/-- Assignment of a string to a `Booking` field.  `Booking` declares no
`validate_assignment` configuration, so the declared `max_length` is
not re-checked at assignment time. -/
def Booking.setStr (b : Booking) (f : BookingStrField) (s : String) : Option Booking :=
  if Booking.cfgValidateAssignment then
    if s.length ≤ f.maxLen then some (b.writeStr f s) else none
  else
    some (b.writeStr f s)

/-- The string-typed fields of `User`. -/
inductive UserStrField where
  | name
  | email
  | phone_number
  | role
deriving DecidableEq, Repr

/-- The declared `max_length` of each string-typed `User` field. -/
def UserStrField.maxLen : UserStrField → Nat
  | .name => 100
  | .email => 255
  | .phone_number => 15
  | .role => 5

/-- Raw field update for the string-typed `User` fields. -/
def User.writeStr (u : User) : UserStrField → String → User
  | .name, s => { u with name := s }
  | .email, s => { u with email := s }
  | .phone_number, s => { u with phone_number := s }
  | .role, s => { u with role := s }

/-- Assignment of a string to a `User` field.  `User` declares no
`validate_assignment` configuration, so nothing is re-checked at
assignment time. -/
def User.setStr (u : User) (f : UserStrField) (s : String) : Option User :=
  if User.cfgValidateAssignment then
    if s.length ≤ f.maxLen then some (u.writeStr f s) else none
  else
    some (u.writeStr f s)

/-- The string-typed fields of `OrderItem`. -/
inductive OrderItemStrField where
  | item_name
  | item_description
  | item_category
  | customizations
  | item_notes
  | item_reference
deriving DecidableEq, Repr

/-- The declared `max_length` of each string-typed `OrderItem`
field. -/
def OrderItemStrField.maxLen : OrderItemStrField → Nat
  | .item_name => 255
  | .item_description => 500
  | .item_category => 100
  | .customizations => 500
  | .item_notes => 500
  | .item_reference => 100

/-- Raw field update for the string-typed `OrderItem` fields. -/
def OrderItem.writeStr (i : OrderItem) : OrderItemStrField → String → OrderItem
  | .item_name, s => { i with item_name := s }
  | .item_description, s => { i with item_description := some s }
  | .item_category, s => { i with item_category := some s }
  | .customizations, s => { i with customizations := some s }
  | .item_notes, s => { i with item_notes := some s }
  | .item_reference, s => { i with item_reference := some s }

/-- Assignment of a string to an `OrderItem` field.  `OrderItem`
declares no `validate_assignment` configuration, so nothing is
re-checked at assignment time. -/
def OrderItem.setStr (i : OrderItem) (f : OrderItemStrField) (s : String) : Option OrderItem :=
  if OrderItem.cfgValidateAssignment then
    if s.length ≤ f.maxLen then some (i.writeStr f s) else none
  else
    some (i.writeStr f s)

/-- Assignment of an integer to `OrderItem.quantity`.  `OrderItem`
declares no `validate_assignment` configuration, so the `ge=1` bound is
not re-checked at assignment time. -/
def OrderItem.setQuantity (i : OrderItem) (q : Int) : Option OrderItem :=
  if OrderItem.cfgValidateAssignment then
    if 1 ≤ q then some { i with quantity := q } else none
  else
    some { i with quantity := q }

/-- The Python type annotation of a schema field. -/
inductive FType where
  | uuid
  | str
  | datetime
  | decimal
  | float
  | int
  | enumT (ename : String)
deriving DecidableEq, Repr

/-- One field declaration of the schema: the annotation and every
constraint keyword its `Field(...)` call carries. -/
structure FieldSpec where
  fname : String
  ftype : FType
  isOptional : Bool
  maxLength : Option Nat
  maxDigits : Option Nat
  decimalPlaces : Option Nat
  geBound : Option Int
deriving DecidableEq, Repr

/-- Build a `FieldSpec` positionally. -/
def fsp (n : String) (t : FType) (opt : Bool) (ml md dp : Option Nat)
    (ge : Option Int) : FieldSpec :=
  ⟨n, t, opt, ml, md, dp, ge⟩

/-- The field declarations of `User`, in source order. -/
def userFields : List FieldSpec :=
  [ fsp "id" .uuid false none none none none
  , fsp "name" .str false (some 100) none none none
  , fsp "email" .str false (some 255) none none none
  , fsp "phone_number" .str false (some 15) none none none
  , fsp "role" .str false (some 5) none none none
  , fsp "created_at" .datetime false none none none none
  , fsp "updated_at" .datetime false none none none none ]

/-- The field declarations of `Booking`, in source order.  Note that
`estimated_price` and `final_price` are annotated `Optional[float]`
with no `max_digits`/`decimal_places` keywords. -/
def bookingFields : List FieldSpec :=
  [ fsp "id" .uuid false none none none none
  , fsp "client_name" .str false (some 255) none none none
  , fsp "email" .str false (some 255) none none none
  , fsp "phone" .str true (some 20) none none none
  , fsp "start_time" .datetime false none none none none
  , fsp "end_time" .datetime false none none none none
  , fsp "service_type" .str true (some 100) none none none
  , fsp "notes" .str true (some 1000) none none none
  , fsp "owner_name" .str false (some 255) none none none
  , fsp "address" .str false (some 255) none none none
  , fsp "status" (.enumT "BookingStatus") false none none none none
  , fsp "created_at" .datetime false none none none none
  , fsp "updated_at" .datetime false none none none none
  , fsp "user_id" .uuid true none none none none
  , fsp "estimated_price" .float true none none none none
  , fsp "final_price" .float true none none none none ]

/-- The field declarations of `Order`, in source order. -/
def orderFields : List FieldSpec :=
  [ fsp "id" .uuid false none none none none
  , fsp "user_id" .uuid true none none none none
  , fsp "customer_name" .str false (some 255) none none none
  , fsp "email" .str false (some 255) none none none
  , fsp "phone_number" .str true (some 15) none none none
  , fsp "address" .str true (some 255) none none none
  , fsp "city" .str true (some 255) none none none
  , fsp "state" .str true (some 100) none none none
  , fsp "postal_code" .str true (some 20) none none none
  , fsp "country" .str true (some 100) none none none
  , fsp "order_type" (.enumT "OrderType") false none none none none
  , fsp "subtotal" .decimal false none (some 10) (some 2) none
  , fsp "tax_amount" .decimal false none (some 10) (some 2) none
  , fsp "service_fee" .decimal false none (some 10) (some 2) none
  , fsp "discount_amount" .decimal false none (some 10) (some 2) none
  , fsp "tip_amount" .decimal false none (some 10) (some 2) none
  , fsp "total_amount" .decimal false none (some 10) (some 2) none
  , fsp "status" (.enumT "OrderStatus") false none none none none
  , fsp "payment_status" (.enumT "PaymentStatus") false none none none none
  , fsp "created_at" .datetime false none none none none
  , fsp "updated_at" .datetime false none none none none
  , fsp "scheduled_for" .datetime true none none none none
  , fsp "completed_at" .datetime true none none none none
  , fsp "special_instructions" .str true (some 1000) none none none
  , fsp "reference_number" .str true (some 100) none none none
  , fsp "payment_method" .str true (some 50) none none none
  , fsp "payment_reference" .str true (some 100) none none none
  , fsp "promo_code" .str true (some 50) none none none
  , fsp "business_notes" .str true (some 1000) none none none ]

/-- The field declarations of `OrderItem`, in source order. -/
def orderItemFields : List FieldSpec :=
  [ fsp "id" .uuid false none none none none
  , fsp "order_id" .uuid false none none none none
  , fsp "item_name" .str false (some 255) none none none
  , fsp "item_description" .str true (some 500) none none none
  , fsp "item_category" .str true (some 100) none none none
  , fsp "quantity" .int false none none none (some 1)
  , fsp "unit_price" .decimal false none (some 10) (some 2) none
  , fsp "total_price" .decimal false none (some 10) (some 2) none
  , fsp "customizations" .str true (some 500) none none none
  , fsp "item_notes" .str true (some 500) none none none
  , fsp "item_reference" .str true (some 100) none none none
  , fsp "created_at" .datetime false none none none none ]

/-- Every field declaration of the whole schema. -/
def allFields : List FieldSpec :=
  userFields ++ bookingFields ++ orderFields ++ orderItemFields

/-- Look a field declaration up by name. -/
def findSpec (l : List FieldSpec) (n : String) : Option FieldSpec :=
  l.find? (fun f => f.fname == n)

/-! ## Concrete records and helper facts used by the theorems -/

/-- A `Booking` whose `estimated_price` holds the bit pattern of the
IEEE-754 double `0.125` — a monetary value with three fractional
digits. -/
def bookingWithPrice : Booking :=
  { mkBooking ⟨0⟩ "c" "e" ⟨0⟩ ⟨1⟩ "o" "a" ⟨0⟩ with
    estimated_price := some ⟨4593671619917905920⟩ }

/-- An `OrderItem` built from the defaults and then given
`quantity = 0`. -/
def itemQtyZero : OrderItem :=
  { mkOrderItem ⟨0⟩ ⟨0⟩ "Coffee" ⟨350, 2⟩ ⟨350, 2⟩ ⟨0⟩ with quantity := 0 }

/-- An `Order` whose six monetary fields are all `-5.00`. -/
def orderNeg : Order :=
  { mkOrder ⟨0⟩ "n" "e" ⟨-500, 2⟩ ⟨-500, 2⟩ ⟨0⟩ with
    tax_amount := ⟨-500, 2⟩
    service_fee := ⟨-500, 2⟩
    discount_amount := ⟨-500, 2⟩
    tip_amount := ⟨-500, 2⟩ }

/-- An `OrderItem` whose two monetary fields are both `-5.00`. -/
def itemNeg : OrderItem :=
  mkOrderItem ⟨0⟩ ⟨0⟩ "x" ⟨-500, 2⟩ ⟨-500, 2⟩ ⟨0⟩

/-- A `Booking` whose two price fields hold the bit pattern of the
IEEE-754 double `-5.0`. -/
def bookingNeg : Booking :=
  { mkBooking ⟨0⟩ "c" "e" ⟨0⟩ ⟨1⟩ "o" "a" ⟨0⟩ with
    estimated_price := some ⟨13840687554816376832⟩
    final_price := some ⟨13840687554816376832⟩ }

/-! ## The claims -/

/-- C1, the claim as stated is false on the code: `Booking` declares
`estimated_price` and `final_price` as `Optional[float]` — a binary
floating-point annotation, not an exact decimal one. -/
theorem c1_booking_price_is_float_counterexample :
    ¬ (∀ f ∈ bookingFields,
        (f.fname = "estimated_price" ∨ f.fname = "final_price") →
          f.ftype ≠ FType.float) := by
  decide

/-- C1 amended: `Booking.estimated_price` and `Booking.final_price`
are optional fields declared with the binary floating-point type
`float`, carrying no decimal-precision constraint
(no `max_digits`/`decimal_places`). -/
theorem c1_booking_price_is_float (f : FieldSpec) (hf : f ∈ bookingFields)
    (hn : f.fname = "estimated_price" ∨ f.fname = "final_price") :
    f.ftype = FType.float ∧ f.isOptional = true ∧
      f.maxDigits = none ∧ f.decimalPlaces = none := by
  fin_cases hf <;> (revert hn; decide)

/-- Witness for C1 amended at the `estimated_price` declaration. -/
theorem c1_booking_price_is_float_witness :
    (fsp "estimated_price" FType.float true none none none none).ftype
        = FType.float ∧
      (fsp "estimated_price" FType.float true none none none none).isOptional
        = true ∧
      (fsp "estimated_price" FType.float true none none none none).maxDigits
        = none ∧
      (fsp "estimated_price" FType.float true none none none none).decimalPlaces
        = none :=
  c1_booking_price_is_float _ (by decide) (Or.inl rfl)

/-- C2: an `Order` built from its required fields alone carries the
declared defaults: the four defaulted monetary fields are zero (the
value of `0.00`), `status` and `payment_status` are `pending`,
`order_type` is `pickup`, and `country` is `"US"`. -/
theorem c2_order_defaults (id : UUID) (cn em : String) (st ta : Dec)
    (now : DateTime) :
    (mkOrder id cn em st ta now).tax_amount.toRat = 0 ∧
      (mkOrder id cn em st ta now).service_fee.toRat = 0 ∧
      (mkOrder id cn em st ta now).discount_amount.toRat = 0 ∧
      (mkOrder id cn em st ta now).tip_amount.toRat = 0 ∧
      (mkOrder id cn em st ta now).status = OrderStatus.pending ∧
      (mkOrder id cn em st ta now).payment_status = PaymentStatus.pending ∧
      (mkOrder id cn em st ta now).order_type = OrderType.pickup ∧
      (mkOrder id cn em st ta now).country = some "US" ∧
      (mkOrder id cn em st ta now).subtotal = st ∧
      (mkOrder id cn em st ta now).total_amount = ta := by
  refine ⟨?_, ?_, ?_, ?_, rfl, rfl, rfl, rfl, rfl, rfl⟩ <;>
    simp [mkOrder, Dec.toRat]

/-- A string is a legal `BookingStatus` value exactly when it is one of
the four declared member values. -/
lemma bookingStatus_ofString_isSome (s : String) :
    (BookingStatus.ofString s).isSome = true ↔
      s ∈ ["pending", "confirmed", "cancelled", "completed"] := by
  unfold BookingStatus.ofString
  split_ifs <;> simp_all

/-- A string is a legal `OrderStatus` value exactly when it is one of
the seven declared member values. -/
lemma orderStatus_ofString_isSome (s : String) :
    (OrderStatus.ofString s).isSome = true ↔
      s ∈ ["pending", "confirmed", "in_progress", "ready", "completed",
           "cancelled", "refunded"] := by
  unfold OrderStatus.ofString
  split_ifs <;> simp_all

/-- A string is a legal `OrderType` value exactly when it is one of the
six declared member values. -/
lemma orderType_ofString_isSome (s : String) :
    (OrderType.ofString s).isSome = true ↔
      s ∈ ["pickup", "delivery", "dine_in", "online", "in_store",
           "service"] := by
  unfold OrderType.ofString
  split_ifs <;> simp_all

/-- A string is a legal `PaymentStatus` value exactly when it is one of
the four declared member values. -/
lemma paymentStatus_ofString_isSome (s : String) :
    (PaymentStatus.ofString s).isSome = true ↔
      s ∈ ["pending", "paid", "failed", "refunded"] := by
  unfold PaymentStatus.ofString
  split_ifs <;> simp_all

/-- C3: each enumerated type has exactly the declared member list
(every member is in the list and the list of string values is the
stated set), and a string outside the closed set is not a legal value:
value lookup succeeds exactly on the listed strings. -/
theorem c3_enum_value_sets :
    (∀ b : BookingStatus, b ∈ BookingStatus.all) ∧
      BookingStatus.all.map BookingStatus.toStr
        = ["pending", "confirmed", "cancelled", "completed"] ∧
      (∀ s : String, (BookingStatus.ofString s).isSome = true ↔
        s ∈ ["pending", "confirmed", "cancelled", "completed"]) ∧
      (∀ o : OrderStatus, o ∈ OrderStatus.all) ∧
      OrderStatus.all.map OrderStatus.toStr
        = ["pending", "confirmed", "in_progress", "ready", "completed",
           "cancelled", "refunded"] ∧
      (∀ s : String, (OrderStatus.ofString s).isSome = true ↔
        s ∈ ["pending", "confirmed", "in_progress", "ready", "completed",
             "cancelled", "refunded"]) ∧
      (∀ t : OrderType, t ∈ OrderType.all) ∧
      OrderType.all.map OrderType.toStr
        = ["pickup", "delivery", "dine_in", "online", "in_store",
           "service"] ∧
      (∀ s : String, (OrderType.ofString s).isSome = true ↔
        s ∈ ["pickup", "delivery", "dine_in", "online", "in_store",
             "service"]) ∧
      (∀ p : PaymentStatus, p ∈ PaymentStatus.all) ∧
      PaymentStatus.all.map PaymentStatus.toStr
        = ["pending", "paid", "failed", "refunded"] ∧
      (∀ s : String, (PaymentStatus.ofString s).isSome = true ↔
        s ∈ ["pending", "paid", "failed", "refunded"]) := by
  refine ⟨fun b => ?_, by decide, bookingStatus_ofString_isSome,
          fun o => ?_, by decide, orderStatus_ofString_isSome,
          fun t => ?_, by decide, orderType_ofString_isSome,
          fun p => ?_, by decide, paymentStatus_ofString_isSome⟩
  · cases b <;> decide
  · cases o <;> decide
  · cases t <;> decide
  · cases p <;> decide

/-- C4, the claim as stated is false on the code: `Booking`'s monetary
fields `estimated_price`/`final_price` declare no
`max_digits`/`decimal_places` constraint, and the declared `Booking`
constraints accept a booking whose `estimated_price` is present (it
holds the bits of the double `0.125`, a value with three fractional
digits) — nothing rejects it. -/
theorem c4_booking_price_unconstrained_counterexample :
    (findSpec bookingFields "estimated_price").map
        (fun f => (f.maxDigits, f.decimalPlaces)) = some (none, none) ∧
      Booking.checkAll bookingWithPrice = true := by
  decide

/-- C4 amended: every `Decimal`-typed field of the schema (the six
monetary fields of `Order` and the two of `OrderItem`) declares
`max_digits=10, decimal_places=2`, and that declared check rejects any
decimal with more than 2 fractional digits or more than 8 integer
digits; `Booking`'s two `float`-typed price fields carry no such
constraint. -/
theorem c4_decimal_precision (f : FieldSpec)
    (hf : f ∈ orderFields ++ orderItemFields)
    (ht : f.ftype = FType.decimal) (d : Dec)
    (hd : 2 < d.exponent ∨ 10 ^ (8 + d.exponent) ≤ d.mantissa.natAbs) :
    (f.maxDigits = some 10 ∧ f.decimalPlaces = some 2) ∧
      validDec d = false := by
  constructor
  · fin_cases hf <;> (revert ht; decide)
  · simp only [validDec, Bool.and_eq_false_iff, decide_eq_false_iff_not,
      not_le, not_lt]
    rcases hd with h | h
    · exact Or.inl h
    · exact Or.inr h

/-- Witness for C4 amended: the `subtotal` declaration together with
the decimal `0.123`, which has three fractional digits and is
rejected. -/
theorem c4_decimal_precision_witness :
    ((fsp "subtotal" FType.decimal false none (some 10) (some 2)
        none).maxDigits = some 10 ∧
      (fsp "subtotal" FType.decimal false none (some 10) (some 2)
        none).decimalPlaces = some 2) ∧
      validDec ⟨123, 3⟩ = false :=
  c4_decimal_precision _ (by decide) rfl ⟨123, 3⟩ (Or.inl (by decide))

/-- C5: `OrderItem.quantity` defaults to `1` when not supplied, and the
declared `ge=1` bound rejects any item whose quantity is `≤ 0`. -/
theorem c5_quantity_default_and_bound (id oid : UUID) (n : String)
    (up tp : Dec) (now : DateTime) :
    (mkOrderItem id oid n up tp now).quantity = 1 ∧
      (∀ i : OrderItem, i.quantity ≤ 0 → OrderItem.checkAll i = false) := by
  refine ⟨rfl, fun i h => ?_⟩
  have hq : decide (1 ≤ i.quantity) = false := by
    simp only [decide_eq_false_iff_not, not_le]
    omega
  simp [OrderItem.checkAll, hq]

/-- Witness for C5: the default-built item (quantity `1`) and the same
item with `quantity := 0`, which the declared constraints reject. -/
theorem c5_quantity_default_and_bound_witness :
    (mkOrderItem ⟨0⟩ ⟨0⟩ "Coffee" ⟨350, 2⟩ ⟨350, 2⟩ ⟨0⟩).quantity = 1 ∧
      OrderItem.checkAll itemQtyZero = false :=
  ⟨(c5_quantity_default_and_bound ⟨0⟩ ⟨0⟩ "Coffee" ⟨350, 2⟩ ⟨350, 2⟩ ⟨0⟩).1,
   (c5_quantity_default_and_bound ⟨0⟩ ⟨0⟩ "Coffee" ⟨350, 2⟩ ⟨350, 2⟩
      ⟨0⟩).2 itemQtyZero (by decide)⟩

/-- C6: `Order.status` and `Order.payment_status` are independently
assignable: every pair of enum values is representable, assigning one
leaves the other unchanged, and the declared constraint set is
indifferent to the combination (e.g. `completed` with `failed` is a
legal state). -/
theorem c6_status_payment_independent (o : Order) (s : OrderStatus)
    (p : PaymentStatus) :
    (o.setStatus s).payment_status = o.payment_status ∧
      (o.setStatus s).status = s ∧
      (o.setPaymentStatus p).status = o.status ∧
      (o.setPaymentStatus p).payment_status = p ∧
      ((o.setStatus s).setPaymentStatus p).status = s ∧
      ((o.setStatus s).setPaymentStatus p).payment_status = p ∧
      Order.checkAll ((o.setStatus s).setPaymentStatus p)
        = Order.checkAll o :=
  ⟨rfl, rfl, rfl, rfl, rfl, rfl, rfl⟩

/-- C7: a `Booking` or an `Order` built from its required fields alone
(user_id omitted) stores `user_id` as absent. -/
theorem c7_guest_user_id_none (id id2 : UUID) (cn em nm em2 : String)
    (t1 t2 : DateTime) (ow ad : String) (st ta : Dec) (now : DateTime) :
    (mkBooking id cn em t1 t2 ow ad now).user_id = none ∧
      (mkOrder id2 nm em2 st ta now).user_id = none :=
  ⟨rfl, rfl⟩

/-- C8: `Order` declares `validate_assignment = True`, so assigning to
any string-typed or decimal-typed `Order` field re-checks the declared
constraint: an over-length string or an out-of-precision decimal is
rejected, while a conforming value is stored. -/
theorem c8_order_assignment_validates (o : Order) (f : OrderStrField)
    (s : String) (g : OrderDecField) (d : Dec) :
    Order.cfgValidateAssignment = true ∧
      (f.maxLen < s.length → Order.setStr o f s = none) ∧
      (validDec d = false → Order.setDec o g d = none) ∧
      (s.length ≤ f.maxLen → Order.setStr o f s = some (o.writeStr f s)) ∧
      (validDec d = true → Order.setDec o g d = some (o.writeDec g d)) := by
  refine ⟨rfl, fun h => ?_, fun h => ?_, fun h => ?_, fun h => ?_⟩
  · simp [Order.setStr, Order.cfgValidateAssignment, not_le.mpr h]
  · simp [Order.setDec, Order.cfgValidateAssignment, h]
  · simp [Order.setStr, Order.cfgValidateAssignment, h]
  · simp [Order.setDec, Order.cfgValidateAssignment, h]

/-- Witness for C8: on a concrete order, a 51-character string assigned
to `payment_method` (max length 50) and the decimal `0.123` assigned to
`tip_amount` are both rejected. -/
theorem c8_order_assignment_validates_witness :
    Order.cfgValidateAssignment = true ∧
      Order.setStr (mkOrder ⟨0⟩ "n" "e" ⟨1000, 2⟩ ⟨1000, 2⟩ ⟨0⟩)
        OrderStrField.payment_method (String.mk (List.replicate 51 'a'))
        = none ∧
      Order.setDec (mkOrder ⟨0⟩ "n" "e" ⟨1000, 2⟩ ⟨1000, 2⟩ ⟨0⟩)
        OrderDecField.tip_amount ⟨123, 3⟩ = none :=
  ⟨(c8_order_assignment_validates (mkOrder ⟨0⟩ "n" "e" ⟨1000, 2⟩ ⟨1000, 2⟩ ⟨0⟩)
      OrderStrField.payment_method (String.mk (List.replicate 51 'a'))
      OrderDecField.tip_amount ⟨123, 3⟩).1,
   (c8_order_assignment_validates (mkOrder ⟨0⟩ "n" "e" ⟨1000, 2⟩ ⟨1000, 2⟩ ⟨0⟩)
      OrderStrField.payment_method (String.mk (List.replicate 51 'a'))
      OrderDecField.tip_amount ⟨123, 3⟩).2.1 (by decide),
   (c8_order_assignment_validates (mkOrder ⟨0⟩ "n" "e" ⟨1000, 2⟩ ⟨1000, 2⟩ ⟨0⟩)
      OrderStrField.payment_method (String.mk (List.replicate 51 'a'))
      OrderDecField.tip_amount ⟨123, 3⟩).2.2.1 (by decide)⟩

/-- C9: only `Order` turns assignment-time validation on; `User`,
`Booking` and `OrderItem` keep the default (off), so an assignment to
any of their fields — of any string whatsoever, however long, or of
any integer quantity, however small — is stored without being
rejected. -/
theorem c9_others_no_assignment_validation (b : Booking) (u : User)
    (i : OrderItem) (fb : BookingStrField) (fu : UserStrField)
    (fi : OrderItemStrField) (s : String) (q : Int) :
    Booking.cfgValidateAssignment = false ∧
      User.cfgValidateAssignment = false ∧
      OrderItem.cfgValidateAssignment = false ∧
      Order.cfgValidateAssignment = true ∧
      Booking.setStr b fb s = some (b.writeStr fb s) ∧
      User.setStr u fu s = some (u.writeStr fu s) ∧
      OrderItem.setStr i fi s = some (i.writeStr fi s) ∧
      OrderItem.setQuantity i q = some { i with quantity := q } :=
  ⟨rfl, rfl, rfl, rfl, rfl, rfl, rfl, rfl⟩

/-- C10: `OrderItem.quantity`'s `ge=1` is the only lower-bound keyword
in the whole schema, and every other numeric field accepts negative
values: all six `Order` monetary fields at `-5.00`, both `OrderItem`
prices at `-5.00`, and both `Booking` float prices at `-5.0` pass
every declared check (while `quantity = 0` fails). -/
theorem c10_quantity_only_lower_bound :
    (allFields.filter (fun f => f.geBound.isSome)).map FieldSpec.fname
        = ["quantity"] ∧
      validDec ⟨-500, 2⟩ = true ∧
      Order.checkAll orderNeg = true ∧
      OrderItem.checkAll itemNeg = true ∧
      Booking.checkAll bookingNeg = true ∧
      OrderItem.checkAll { itemNeg with quantity := 0 } = false := by
  decide
